import Mathlib

/-
Verification of the OpenAL backend of minimodem (src/simpleaudio-openal.c)
against its natural-language specification.

The C file is shallowly embedded below.  The OpenAL library itself is an
external collaborator: its observable behaviour (source queue contents,
processed-buffer count, playback state) is modelled as explicit state
(`SourceState`), and the values returned by the polling queries inside the
busy-wait loops are supplied by an explicit schedule function together with
a fuel bound (the loops in the C have no timeout, so an exhausted fuel /
`none` result models "the call has not returned yet").
An `assert(...)` failure aborts the process; it is modelled by the
distinguished error value `SaFatal.assertFailed` (equivalently, a `none`
result for the state-transforming operations).
-/

set_option maxRecDepth 100000

namespace SimpleaudioOpenAL

/-- `#define NUM_BUFFERS 128` (line 44). -/
def NUM_BUFFERS : Nat := 128

/-- The value of the C expression `(ALuint)(-1)` (line 124): `ALuint` is an
unsigned 32-bit integer, so `-1` wraps to `2^32 - 1`. -/
def ALuintNeg1 : Nat := 2 ^ 32 - 1

/-- Fatal condition: a failed `assert` aborts the process (deterministically,
with assertions enabled). -/
inductive SaFatal where
  | assertFailed
deriving DecidableEq

/-- The `ALenum` error codes handled by `al_error_str` (lines 55-74). -/
inductive ALenumErr where
  | AL_NO_ERROR
  | AL_INVALID_NAME
  | AL_INVALID_ENUM
  | AL_INVALID_VALUE
  | AL_INVALID_OPERATION
  | AL_OUT_OF_MEMORY
deriving DecidableEq

/-- `al_error_str` (lines 55-74).  The C `default: assert(0)` arm is
unreachable here because `ALenumErr` enumerates exactly the valid codes. -/
def al_error_str : ALenumErr → String
  | .AL_NO_ERROR => "AL_NO_ERROR"
  | .AL_INVALID_NAME => "AL_INVALID_NAME"
  | .AL_INVALID_ENUM => "AL_INVALID_ENUM"
  | .AL_INVALID_VALUE => "AL_INVALID_VALUE"
  | .AL_INVALID_OPERATION => "AL_INVALID_OPERATION"
  | .AL_OUT_OF_MEMORY => "AL_OUT_OF_MEMORY"

/-- The `ALCenum` error codes handled by `alc_error_str` (lines 77-96). -/
inductive ALCenumErr where
  | ALC_NO_ERROR
  | ALC_INVALID_DEVICE
  | ALC_INVALID_CONTEXT
  | ALC_INVALID_ENUM
  | ALC_INVALID_VALUE
  | ALC_OUT_OF_MEMORY
deriving DecidableEq

/-- `alc_error_str` (lines 77-96). -/
def alc_error_str : ALCenumErr → String
  | .ALC_NO_ERROR => "ALC_NO_ERROR"
  | .ALC_INVALID_DEVICE => "ALC_INVALID_DEVICE"
  | .ALC_INVALID_CONTEXT => "ALC_INVALID_CONTEXT"
  | .ALC_INVALID_ENUM => "ALC_INVALID_ENUM"
  | .ALC_INVALID_VALUE => "ALC_INVALID_VALUE"
  | .ALC_OUT_OF_MEMORY => "ALC_OUT_OF_MEMORY"

/-- Modelled from the spec: the abstract sample-format enumeration
`sa_format_t` is declared in `simpleaudio.h`, which is not part of the
given sources.  The spec states that the supported set contains only
16-bit signed PCM; at least one other format value exists (the backend
must reject it), modelled here by the float sample format. -/
inductive sa_format_t where
  | SA_SAMPLE_FORMAT_S16
  | SA_SAMPLE_FORMAT_FLOAT
deriving DecidableEq

/-- Modelled from the spec: the stream-direction enumeration
`sa_direction_t` from `simpleaudio.h` ("`direction`: enum
{Playback, Record}"). -/
inductive sa_direction_t where
  | SA_STREAM_PLAYBACK
  | SA_STREAM_RECORD
deriving DecidableEq

/-- The OpenAL buffer-format tags produced by `al_format`. -/
inductive ALformat where
  | AL_FORMAT_MONO16
  | AL_FORMAT_STEREO16
deriving DecidableEq

/-- `al_format` (lines 99-110): `assert(channels == 1 || channels == 2)`,
then a switch on the sample format whose `default` arm is
`assert(0 && "Unsupported buffer format")`. -/
def al_format (format : sa_format_t) (channels : Nat) : Except SaFatal ALformat :=
  if channels = 1 ∨ channels = 2 then
    match format with
    | .SA_SAMPLE_FORMAT_S16 =>
      .ok (if channels = 1 then .AL_FORMAT_MONO16 else .AL_FORMAT_STEREO16)
    | .SA_SAMPLE_FORMAT_FLOAT => .error .assertFailed
  else
    .error .assertFailed

/-- The `openal_handle` struct (lines 46-52).  `device`, `context` and
`source` are opaque resource handles; only the buffer-handle pool and the
direction are observable by the embedded algorithms. -/
structure openal_handle where
  buffers : List Nat
  direction : sa_direction_t

/-- `sa_openal_read` (lines 113-117): the body is `assert(0)`; no frames are
ever transferred. -/
def sa_openal_read (nframes : Nat) : Except SaFatal Nat :=
  .error .assertFailed

/-- Observable state of the OpenAL source owned by a session:
`queued` is the source's buffer queue in FIFO order (head = oldest, the
value `AL_BUFFERS_QUEUED` counts), `processed` is how many buffers at the
head of the queue the device has finished playing (`AL_BUFFERS_PROCESSED`),
and `playing` is whether `AL_SOURCE_STATE` equals `AL_PLAYING`. -/
structure SourceState where
  queued : List Nat
  processed : Nat
  playing : Bool
deriving DecidableEq

/-- Source state right after `sa_openal_open_stream` succeeds: no buffer has
been queued yet and the freshly generated source is in `AL_INITIAL` state
(not playing). -/
def initState : SourceState := ⟨[], 0, false⟩

/-- Lines 124-133 of `sa_openal_write`: `ALuint buffer = -1;` followed by
`if (nqueuedbufs < NUM_BUFFERS) buffer = hdl->buffers[nqueuedbufs];`.
Returns the value of `buffer` after these lines. -/
def selectedOrSentinel (hdl : openal_handle) (nqueuedbufs : Nat) : Nat :=
  if nqueuedbufs < NUM_BUFFERS then hdl.buffers.getD nqueuedbufs 0 else ALuintNeg1

/-- The busy-wait loop of lines 137-141:
`while (nreadybufs <= 0) alGetSourcei(source, AL_BUFFERS_PROCESSED, &nreadybufs);`.
`sched i` is the processed-buffer count the device reports at the `i`-th
poll; the loop is a pure spin, so a run that never observes a positive
count does not return (modelled by `none` for every fuel). -/
def pollProcessed (sched : Nat → Nat) : Nat → Nat → Option Nat
  | _, 0 => none
  | i, fuel + 1 =>
    if 0 < sched i then some (sched i) else pollProcessed sched (i + 1) fuel

/-- Result of one `sa_openal_write` call. -/
structure WriteRet where
  /-- source state when the call returns -/
  st : SourceState
  /-- the buffer handle that was filled (`alBufferData`) and enqueued -/
  buffer : Nat
  /-- number of frames uploaded into that one buffer -/
  frames : Nat
  /-- the C return value (line 170: `return nframes`) -/
  ret : Nat
  /-- whether `alSourcePlay` was issued (lines 166-168) -/
  played : Bool
  /-- whether the pool-exhausted path (lines 136-145) was entered -/
  blocked : Bool
deriving DecidableEq

/-- Lines 123-145 of `sa_openal_write`: buffer selection.  Fast path: the
pool entry at index `nqueuedbufs` (unless it collides with the `-1`
sentinel).  Otherwise: spin until the device reports a processed buffer,
then `alSourceUnqueueBuffers(source, 1, &buffer)` dequeues the oldest
queued buffer (which the report marks processed).  Unqueueing with an empty
queue is an OpenAL error, hence hits the `assert` on line 144 (`none`). -/
def selectBuffer (hdl : openal_handle) (st : SourceState) (sched : Nat → Nat)
    (fuel : Nat) : Option (Nat × SourceState × Bool) :=
  if selectedOrSentinel hdl st.queued.length = ALuintNeg1 then
    match pollProcessed sched 0 fuel with
    | none => none
    | some nreadybufs =>
      match st.queued with
      | [] => none
      | b :: rest => some (b, ⟨rest, nreadybufs - 1, st.playing⟩, true)
  else
    some (selectedOrSentinel hdl st.queued.length, st, false)

/-- Lines 147-170 of `sa_openal_write`: `alBufferData` uploads all
`nframes` frames into the selected buffer (`al_format` may abort via its
asserts), `alSourceQueueBuffers` appends it to the source queue, then the
playback state is queried and `alSourcePlay` issued iff it is not
`AL_PLAYING`; finally `return nframes`. -/
def finishWrite (format : sa_format_t) (channels : Nat) (nframes : Nat) :
    Nat × SourceState × Bool → Option WriteRet
  | (buffer, st1, blocked) =>
    match al_format format channels with
    | .error _ => none
    | .ok _ =>
      let st2 : SourceState := ⟨st1.queued ++ [buffer], st1.processed, st1.playing⟩
      let st3 : SourceState := if st2.playing then st2 else ⟨st2.queued, st2.processed, true⟩
      some ⟨st3, buffer, nframes, nframes, !st2.playing, blocked⟩

/-- `sa_openal_write` (lines 120-171). -/
def sa_openal_write (hdl : openal_handle) (format : sa_format_t) (channels : Nat)
    (st : SourceState) (nframes : Nat) (sched : Nat → Nat) (fuel : Nat) :
    Option WriteRet :=
  (selectBuffer hdl st sched fuel).bind (finishWrite format channels nframes)

/-- One unit of asynchronous device progress between calls: the device
finishes playing the oldest not-yet-processed queued buffer, if any. -/
def deviceProcess (st : SourceState) : SourceState :=
  if st.processed < st.queued.length then ⟨st.queued, st.processed + 1, st.playing⟩ else st

/-- Events of a single-session history: a `write` call by the owner thread,
or one unit of device progress. -/
inductive Event where
  | write (nframes : Nat)
  | process
deriving DecidableEq

/-- One step of a session history.  A `write` observes the device state as
it stands (the poll schedule is the constant current processed count, one
poll of fuel): a write that would spin with no processed buffer available
yields `none`, i.e. the history cannot continue until a `process` event is
interleaved — exactly the busy-wait.  The second component is the frame
count the write returned (`0` for device progress). -/
def stepEv (hdl : openal_handle) (format : sa_format_t) (channels : Nat)
    (st : SourceState) : Event → Option (SourceState × Nat)
  | .write n =>
    (sa_openal_write hdl format channels st n (fun _ => st.processed) 1).map
      (fun r => (r.st, r.ret))
  | .process => some (deviceProcess st, 0)

/-- Run a session history, accumulating the total frame count returned by
the write calls. -/
def runTrace (hdl : openal_handle) (format : sa_format_t) (channels : Nat) :
    SourceState → List Event → Option (SourceState × Nat)
  | st, [] => some (st, 0)
  | st, e :: es =>
    (stepEv hdl format channels st e).bind
      (fun p => (runTrace hdl format channels p.1 es).map (fun q => (q.1, p.2 + q.2)))

/-- Total frames submitted by the write events of a history. -/
def framesSubmitted : List Event → Nat
  | [] => 0
  | .write n :: es => n + framesSubmitted es
  | .process :: es => framesSubmitted es

/-- Buffers in flight: filled-and-queued on the source and not yet marked
processed by the device. -/
def inFlight (st : SourceState) : Nat := st.queued.length - st.processed

/-- Shape invariant of the source queue maintained by the write scheduler:
before the pool is saturated the queue is exactly the first `queuedCount`
pool buffers in allocation order; once saturated it is a rotation of the
whole pool. -/
def QueueInv (hdl : openal_handle) (st : SourceState) : Prop :=
  (st.queued.length < NUM_BUFFERS ∧ st.queued = hdl.buffers.take st.queued.length) ∨
  (∃ j, st.queued = hdl.buffers.rotate j)

/-- Run a sequence of back-to-back write calls (no device progress in
between), returning the final state and the buffer handle each write
selected and filled. -/
def runWrites (hdl : openal_handle) (format : sa_format_t) (channels : Nat) :
    SourceState → List Nat → Option (SourceState × List Nat)
  | st, [] => some (st, [])
  | st, n :: ns =>
    (sa_openal_write hdl format channels st n (fun _ => st.processed) 1).bind
      (fun r => (runWrites hdl format channels r.st ns).map (fun p => (p.1, r.buffer :: p.2)))

/-- Environment of one `sa_openal_open_stream` call: whether the two
fallible external acquisitions succeed, and the error codes the device
reports on failure. -/
structure OpenEnv where
  /-- `alcOpenDevice` returns a non-NULL device -/
  deviceOk : Bool
  /-- `alcCreateContext` returns a non-NULL context -/
  contextOk : Bool
  /-- value `alGetError()` yields at line 239 -/
  alErr : ALenumErr
  /-- value `alcGetError(hdl->device)` yields at line 247 -/
  alcErr : ALCenumErr
deriving DecidableEq

/-- Resource/effect ledger of one `sa_openal_open_stream` call. -/
structure OpenOutcome where
  /-- `return 1` was reached -/
  success : Bool
  /-- an `assert(0)` was reached (process aborts) -/
  aborted : Bool
  /-- `alcOpenDevice` was called and returned a device -/
  deviceOpened : Bool
  /-- `alcCloseDevice`/`alcCaptureCloseDevice` was called before returning -/
  deviceClosed : Bool
  /-- `alcCreateContext` returned a context -/
  contextCreated : Bool
  /-- `alcDestroyContext` was called before returning -/
  contextDestroyed : Bool
  /-- `alGenSources` was executed -/
  sourceCreated : Bool
  /-- `alGenBuffers(NUM_BUFFERS, ...)` was executed -/
  buffersCreated : Bool
  /-- `free(hdl)` was called (the `fail:` label, line 265) -/
  heapFreed : Bool
  /-- `sa->backend_handle` was set to the new handle -/
  sessionStored : Bool
  /-- the `fprintf(stderr, ...)` diagnostic, if any -/
  diagnostic : Option String
deriving DecidableEq

/-- `sa_openal_open_stream` (lines 212-267).  Note that the C function
never reads its `sa_format` / `channels` parameters to validate them
(`al_format` is only invoked from `sa_openal_write`), and that the `fail:`
path only runs `free(hdl)`. -/
def sa_openal_open_stream (dir : sa_direction_t) (format : sa_format_t)
    (channels : Nat) (env : OpenEnv) : OpenOutcome :=
  match dir with
  | .SA_STREAM_RECORD =>
    -- line 230: `assert(0);` — capture open is not implemented
    { success := false, aborted := true, deviceOpened := false, deviceClosed := false,
      contextCreated := false, contextDestroyed := false, sourceCreated := false,
      buffersCreated := false, heapFreed := false, sessionStored := false,
      diagnostic := none }
  | .SA_STREAM_PLAYBACK =>
    if env.deviceOk = false then
      -- lines 238-241: diagnostic, then `goto fail` (free(hdl); return 0)
      { success := false, aborted := false, deviceOpened := false, deviceClosed := false,
        contextCreated := false, contextDestroyed := false, sourceCreated := false,
        buffersCreated := false, heapFreed := true, sessionStored := false,
        diagnostic := some ("E: Cannot open OpenAL device: " ++ al_error_str env.alErr ++ "\n ") }
    else if env.contextOk = false then
      -- lines 244-249: device stays open; diagnostic; `goto fail`
      { success := false, aborted := false, deviceOpened := true, deviceClosed := false,
        contextCreated := false, contextDestroyed := false, sourceCreated := false,
        buffersCreated := false, heapFreed := true, sessionStored := false,
        diagnostic := some ("E: Cannot create OpenAL context: " ++ alc_error_str env.alcErr ++ "\n ") }
    else
      -- lines 251-262: source + buffers created, handle stored, return 1
      { success := true, aborted := false, deviceOpened := true, deviceClosed := false,
        contextCreated := true, contextDestroyed := false, sourceCreated := true,
        buffersCreated := true, heapFreed := false, sessionStored := true,
        diagnostic := none }

/-- The device-closing call chosen by the `switch (hdl->direction)` of
lines 197-206. -/
inductive CloseCall where
  | alcCloseDevice
  | alcCaptureCloseDevice
deriving DecidableEq

/-- Lines 197-206 of `sa_openal_close`. -/
def directionCloseCall : sa_direction_t → CloseCall
  | .SA_STREAM_PLAYBACK => .alcCloseDevice
  | .SA_STREAM_RECORD => .alcCaptureCloseDevice

/-- The drain loop of lines 183-187:
`do { alGetSourcei(source, AL_SOURCE_STATE, &state); } while (state == AL_PLAYING);`.
`sched i` tells whether the source still reports `AL_PLAYING` at the `i`-th
poll; returns the index of the first poll that observed not-playing. -/
def drainLoop (sched : Nat → Bool) : Nat → Nat → Option Nat
  | _, 0 => none
  | i, fuel + 1 => if sched i then drainLoop sched (i + 1) fuel else some i

/-- Resource/effect ledger of one `sa_openal_close` call. -/
structure CloseOutcome where
  /-- the `!hdl` early return of lines 178-180 was taken -/
  noop : Bool
  /-- index of the drain poll that first observed a not-playing state -/
  drainedAt : Nat
  /-- `alDeleteSources` was called -/
  sourceDeleted : Bool
  /-- `alcMakeContextCurrent(NULL); alcDestroyContext(...)` were called -/
  contextDestroyed : Bool
  /-- which device-closing call was made, if any -/
  deviceCloseCall : Option CloseCall
  /-- `sa->backend_handle = NULL` was executed -/
  handleCleared : Bool
deriving DecidableEq

/-- `sa_openal_close` (lines 174-209).  `hdl = none` models a session whose
`backend_handle` is NULL (already closed). -/
def sa_openal_close (hdl : Option openal_handle) (sched : Nat → Bool)
    (fuel : Nat) : Option CloseOutcome :=
  match hdl with
  | none =>
    some { noop := true, drainedAt := 0, sourceDeleted := false,
           contextDestroyed := false, deviceCloseCall := none, handleCleared := false }
  | some h =>
    match drainLoop sched 0 fuel with
    | none => none
    | some i =>
      some { noop := false, drainedAt := i, sourceDeleted := true,
             contextDestroyed := true,
             deviceCloseCall := some (directionCloseCall h.direction),
             handleCleared := true }

/-! ### Helper lemmas about the busy-wait loops -/

theorem pollProcessed_none_of_zero {sched : Nat → Nat} (h : ∀ i, sched i = 0) :
    ∀ (fuel i : Nat), pollProcessed sched i fuel = none := by
  intro fuel
  induction fuel with
  | zero => intro i; rfl
  | succ fuel ih =>
    intro i
    unfold pollProcessed
    rw [h i]
    simpa using ih (i + 1)

theorem pollProcessed_some_of_exists {sched : Nat → Nat} :
    ∀ (fuel i : Nat), (∃ j, j < fuel ∧ 0 < sched (i + j)) →
      ∃ v, pollProcessed sched i fuel = some v := by
  intro fuel
  induction fuel with
  | zero =>
    intro i h
    obtain ⟨j, hj, _⟩ := h
    omega
  | succ fuel ih =>
    intro i h
    obtain ⟨j, hj, hpos⟩ := h
    by_cases hs : 0 < sched i
    · exact ⟨sched i, by unfold pollProcessed; rw [if_pos hs]⟩
    · have hnext : ∃ j, j < fuel ∧ 0 < sched ((i + 1) + j) := by
        cases j with
        | zero => exact absurd (by simpa using hpos) hs
        | succ j =>
          refine ⟨j, by omega, ?_⟩
          have harith : i + (j + 1) = (i + 1) + j := by omega
          rwa [harith] at hpos
      obtain ⟨v, hv⟩ := ih (i + 1) hnext
      exact ⟨v, by unfold pollProcessed; rw [if_neg hs]; exact hv⟩

theorem drainLoop_none_of_playing {sched : Nat → Bool} (h : ∀ i, sched i = true) :
    ∀ (fuel i : Nat), drainLoop sched i fuel = none := by
  intro fuel
  induction fuel with
  | zero => intro i; rfl
  | succ fuel ih =>
    intro i
    unfold drainLoop
    rw [h i]
    simpa using ih (i + 1)

theorem drainLoop_some_of_exists {sched : Nat → Bool} :
    ∀ (fuel i : Nat), (∃ j, j < fuel ∧ sched (i + j) = false) →
      ∃ k, drainLoop sched i fuel = some k ∧ sched k = false ∧
        ∀ m, i ≤ m → m < k → sched m = true := by
  intro fuel
  induction fuel with
  | zero =>
    intro i h
    obtain ⟨j, hj, _⟩ := h
    omega
  | succ fuel ih =>
    intro i h
    obtain ⟨j, hj, hfalse⟩ := h
    cases hs : sched i with
    | false =>
      refine ⟨i, ?_, hs, ?_⟩
      · unfold drainLoop; rw [hs]; rfl
      · intro m him hmi; omega
    | true =>
      have hnext : ∃ j, j < fuel ∧ sched ((i + 1) + j) = false := by
        cases j with
        | zero => rw [Nat.add_zero] at hfalse; rw [hfalse] at hs; cases hs
        | succ j =>
          refine ⟨j, by omega, ?_⟩
          have harith : i + (j + 1) = (i + 1) + j := by omega
          rwa [harith] at hfalse
      obtain ⟨k, hk, hkf, hkall⟩ := ih (i + 1) hnext
      refine ⟨k, ?_, hkf, ?_⟩
      · unfold drainLoop; rw [hs]; exact hk
      · intro m him hmk
        rcases Nat.eq_or_lt_of_le him with heq | hlt
        · rwa [← heq]
        · exact hkall m hlt hmk

/-! ### Helper lemmas about the write scheduler -/

theorem selectedOrSentinel_of_lt {hdl : openal_handle} {nq : Nat}
    (h : nq < NUM_BUFFERS) :
    selectedOrSentinel hdl nq = hdl.buffers.getD nq 0 := by
  unfold selectedOrSentinel
  rw [if_pos h]

theorem selectedOrSentinel_of_ge {hdl : openal_handle} {nq : Nat}
    (h : ¬ nq < NUM_BUFFERS) :
    selectedOrSentinel hdl nq = ALuintNeg1 := by
  unfold selectedOrSentinel
  rw [if_neg h]

theorem finishWrite_ok {fmt : sa_format_t} {ch : Nat} {f : ALformat}
    (hf : al_format fmt ch = .ok f) (n b : Nat) (st1 : SourceState) (blk : Bool) :
    finishWrite fmt ch n (b, st1, blk) =
      some ⟨⟨st1.queued ++ [b], st1.processed, true⟩, b, n, n, !st1.playing, blk⟩ := by
  unfold finishWrite
  rw [hf]
  cases hp : st1.playing <;> simp [hp]

theorem finishWrite_err {fmt : sa_format_t} {ch : Nat}
    (hf : al_format fmt ch = .error .assertFailed) (n : Nat)
    (trip : Nat × SourceState × Bool) :
    finishWrite fmt ch n trip = none := by
  obtain ⟨b, st1, blk⟩ := trip
  unfold finishWrite
  rw [hf]

theorem write_fast {hdl : openal_handle} {fmt : sa_format_t} {ch : Nat} {f : ALformat}
    (st : SourceState) (n : Nat) (sched : Nat → Nat) (fuel : Nat)
    (hnq : st.queued.length < NUM_BUFFERS)
    (hb : hdl.buffers.getD st.queued.length 0 ≠ ALuintNeg1)
    (hf : al_format fmt ch = .ok f) :
    sa_openal_write hdl fmt ch st n sched fuel =
      some ⟨⟨st.queued ++ [hdl.buffers.getD st.queued.length 0], st.processed, true⟩,
            hdl.buffers.getD st.queued.length 0, n, n, !st.playing, false⟩ := by
  have hsel := @selectedOrSentinel_of_lt hdl _ hnq
  unfold sa_openal_write selectBuffer
  rw [hsel, if_neg hb, Option.some_bind]
  exact finishWrite_ok hf n _ st false

theorem write_block {hdl : openal_handle} {fmt : sa_format_t} {ch : Nat} {f : ALformat}
    {st : SourceState} {sched : Nat → Nat} {fuel v b : Nat} {rest : List Nat}
    (n : Nat)
    (hsel : selectedOrSentinel hdl st.queued.length = ALuintNeg1)
    (hpoll : pollProcessed sched 0 fuel = some v)
    (hq : st.queued = b :: rest)
    (hf : al_format fmt ch = .ok f) :
    sa_openal_write hdl fmt ch st n sched fuel =
      some ⟨⟨rest ++ [b], v - 1, true⟩, b, n, n, !st.playing, true⟩ := by
  unfold sa_openal_write selectBuffer
  rw [if_pos hsel, hpoll, hq, Option.some_bind]
  exact finishWrite_ok hf n b ⟨rest, v - 1, st.playing⟩ true

theorem write_block_spin {hdl : openal_handle} {fmt : sa_format_t} {ch : Nat}
    {st : SourceState} {sched : Nat → Nat} {fuel : Nat} (n : Nat)
    (hsel : selectedOrSentinel hdl st.queued.length = ALuintNeg1)
    (hpoll : pollProcessed sched 0 fuel = none) :
    sa_openal_write hdl fmt ch st n sched fuel = none := by
  unfold sa_openal_write selectBuffer
  rw [if_pos hsel, hpoll]
  rfl

theorem write_block_empty {hdl : openal_handle} {fmt : sa_format_t} {ch : Nat}
    {st : SourceState} {sched : Nat → Nat} {fuel v : Nat} (n : Nat)
    (hsel : selectedOrSentinel hdl st.queued.length = ALuintNeg1)
    (hpoll : pollProcessed sched 0 fuel = some v)
    (hq : st.queued = []) :
    sa_openal_write hdl fmt ch st n sched fuel = none := by
  unfold sa_openal_write selectBuffer
  rw [if_pos hsel, hpoll, hq]
  rfl

theorem write_format_err {hdl : openal_handle} {fmt : sa_format_t} {ch : Nat}
    (st : SourceState) (n : Nat) (sched : Nat → Nat) (fuel : Nat)
    (hf : al_format fmt ch = .error .assertFailed) :
    sa_openal_write hdl fmt ch st n sched fuel = none := by
  unfold sa_openal_write
  cases hsel : selectBuffer hdl st sched fuel with
  | none => rfl
  | some trip => rw [Option.some_bind]; exact finishWrite_err hf n trip

/-- Anatomy of a completed write call: the returned frame counts, the final
playback state, whether playback was started, and the two buffer-selection
paths with their queue effects. -/
theorem write_anatomy {hdl : openal_handle} {fmt : sa_format_t} {ch : Nat}
    {st : SourceState} {n : Nat} {sched : Nat → Nat} {fuel : Nat} {ret : WriteRet}
    (h : sa_openal_write hdl fmt ch st n sched fuel = some ret) :
    ret.ret = n ∧ ret.frames = n ∧ ret.st.playing = true ∧ ret.played = !st.playing ∧
    ((ret.blocked = false ∧
        selectedOrSentinel hdl st.queued.length ≠ ALuintNeg1 ∧
        ret.buffer = selectedOrSentinel hdl st.queued.length ∧
        ret.st.queued = st.queued ++ [ret.buffer] ∧
        ret.st.processed = st.processed) ∨
     (ret.blocked = true ∧
        selectedOrSentinel hdl st.queued.length = ALuintNeg1 ∧
        ∃ v rest, pollProcessed sched 0 fuel = some v ∧
          st.queued = ret.buffer :: rest ∧
          ret.st.queued = rest ++ [ret.buffer] ∧
          ret.st.processed = v - 1)) := by
  cases hfm : al_format fmt ch with
  | error e =>
    cases e
    rw [write_format_err st n sched fuel hfm] at h
    cases h
  | ok f =>
    by_cases hs : selectedOrSentinel hdl st.queued.length = ALuintNeg1
    · cases hpoll : pollProcessed sched 0 fuel with
      | none => rw [write_block_spin n hs hpoll] at h; cases h
      | some v =>
        cases hq : st.queued with
        | nil => rw [write_block_empty n hs hpoll hq] at h; cases h
        | cons b rest =>
          rw [write_block n hs hpoll hq hfm] at h
          injection h with h
          subst h
          exact ⟨rfl, rfl, rfl, rfl, Or.inr ⟨rfl, hq ▸ hs, v, rest, rfl, rfl, rfl, rfl⟩⟩
    · have hnq : st.queued.length < NUM_BUFFERS := by
        by_contra hge
        exact hs (selectedOrSentinel_of_ge hge)
      have hsel := @selectedOrSentinel_of_lt hdl _ hnq
      have hb : hdl.buffers.getD st.queued.length 0 ≠ ALuintNeg1 :=
        fun hcontra => hs (hsel.trans hcontra)
      rw [write_fast st n sched fuel hnq hb hfm] at h
      injection h with h
      subst h
      exact ⟨rfl, rfl, rfl, rfl, Or.inl ⟨rfl, hs, hsel.symm, rfl, rfl⟩⟩

theorem runWrites_cons (hdl : openal_handle) (fmt : sa_format_t) (ch : Nat)
    (st : SourceState) (n : Nat) (ns : List Nat) :
    runWrites hdl fmt ch st (n :: ns) =
      (sa_openal_write hdl fmt ch st n (fun _ => st.processed) 1).bind
        (fun r => (runWrites hdl fmt ch r.st ns).map (fun p => (p.1, r.buffer :: p.2))) := by
  rfl

theorem runTrace_cons (hdl : openal_handle) (fmt : sa_format_t) (ch : Nat)
    (st : SourceState) (e : Event) (es : List Event) :
    runTrace hdl fmt ch st (e :: es) =
      (stepEv hdl fmt ch st e).bind
        (fun p => (runTrace hdl fmt ch p.1 es).map (fun q => (q.1, p.2 + q.2))) := by
  rfl

/-- Back-to-back writes with no device progress claim fresh pool buffers in
allocation order: starting from a queue holding the first `k` pool buffers,
a run of `ns.length` further writes (with `k + ns.length ≤ 128`) selects
exactly pool buffers `k, k+1, ...` and leaves the first `k + ns.length`
pool buffers queued. -/
theorem runWrites_fresh {hdl : openal_handle} {fmt : sa_format_t} {ch : Nat} {f : ALformat}
    (hlen : hdl.buffers.length = NUM_BUFFERS)
    (hsent : ALuintNeg1 ∉ hdl.buffers)
    (hf : al_format fmt ch = .ok f) :
    ∀ (ns : List Nat) (k : Nat) (st : SourceState), k + ns.length ≤ NUM_BUFFERS →
      st.queued = hdl.buffers.take k →
      ∃ st2, runWrites hdl fmt ch st ns = some (st2, (hdl.buffers.drop k).take ns.length) ∧
        st2.queued = hdl.buffers.take (k + ns.length) := by
  intro ns
  induction ns with
  | nil =>
    intro k st hk hq
    exact ⟨st, by simp [runWrites], by simpa using hq⟩
  | cons n ns ih =>
    intro k st hk hq
    have hklt : k < NUM_BUFFERS := by
      simp only [List.length_cons] at hk
      omega
    have hkbuf : k < hdl.buffers.length := by omega
    have hnq : st.queued.length = k := by
      rw [hq, List.length_take]
      omega
    have hb : hdl.buffers.getD st.queued.length 0 ≠ ALuintNeg1 := by
      rw [hnq, List.getD_eq_getElem _ _ hkbuf]
      exact fun hcontra => hsent (hcontra ▸ List.getElem_mem hkbuf)
    have hw := write_fast st n (fun _ => st.processed) 1
      (by omega) hb hf
    have hq1 : (st.queued ++ [hdl.buffers.getD st.queued.length 0]) =
        hdl.buffers.take (k + 1) := by
      rw [hnq, hq, List.getD_eq_getElem _ _ hkbuf, List.take_succ,
        List.getElem?_eq_getElem hkbuf]
      rfl
    obtain ⟨st2, hrun, hq2⟩ := ih (k + 1)
      ⟨st.queued ++ [hdl.buffers.getD st.queued.length 0], st.processed, true⟩
      (by simp only [List.length_cons] at hk; omega)
      hq1
    refine ⟨st2, ?_, ?_⟩
    · rw [runWrites_cons, hw, Option.some_bind]
      rw [hrun, Option.map_some']
      have hdrop : hdl.buffers.drop k = hdl.buffers[k] :: hdl.buffers.drop (k + 1) :=
        List.drop_eq_getElem_cons hkbuf
      rw [hdrop]
      rw [hnq, List.getD_eq_getElem _ _ hkbuf]
      simp only [List.length_cons, List.take_succ_cons]
    · rw [hq2]
      congr 1
      simp only [List.length_cons]
      omega

/-- `QueueInv` holds right after open. -/
theorem queueInv_init (hdl : openal_handle) : QueueInv hdl initState :=
  Or.inl ⟨by simp [initState, NUM_BUFFERS], by simp [initState]⟩

/-- Device progress does not touch the queue, so it preserves `QueueInv`. -/
theorem queueInv_process {hdl : openal_handle} {st : SourceState}
    (h : QueueInv hdl st) : QueueInv hdl (deviceProcess st) := by
  unfold deviceProcess
  split
  · rcases h with ⟨hlt, hq⟩ | ⟨j, hq⟩
    · exact Or.inl ⟨hlt, hq⟩
    · exact Or.inr ⟨j, hq⟩
  · exact h

/-- A completed write preserves `QueueInv` (for a full, sentinel-free pool). -/
theorem queueInv_write {hdl : openal_handle} {fmt : sa_format_t} {ch : Nat}
    {st : SourceState} {n : Nat} {sched : Nat → Nat} {fuel : Nat} {ret : WriteRet}
    (hlen : hdl.buffers.length = NUM_BUFFERS)
    (hsent : ALuintNeg1 ∉ hdl.buffers)
    (hinv : QueueInv hdl st)
    (h : sa_openal_write hdl fmt ch st n sched fuel = some ret) :
    QueueInv hdl ret.st := by
  obtain ⟨-, -, -, -, hpath⟩ := write_anatomy h
  rcases hpath with ⟨-, hs, hbuf, hq, -⟩ | ⟨-, hs, v, rest, -, hq, hq2, -⟩
  · -- fast path: the selected value is a real pool entry, so the index is < 128
    have hnq : st.queued.length < NUM_BUFFERS := by
      by_contra hge
      exact hs (selectedOrSentinel_of_ge hge)
    have hkbuf : st.queued.length < hdl.buffers.length := by omega
    rcases hinv with ⟨-, hqpre⟩ | ⟨j, hqrot⟩
    · have hq1 : ret.st.queued = hdl.buffers.take (st.queued.length + 1) := by
        rw [hq, hbuf, selectedOrSentinel_of_lt hnq]
        rw [List.getD_eq_getElem _ _ hkbuf, List.take_succ,
          List.getElem?_eq_getElem hkbuf, ← hqpre]
        rfl
      have hlen1 : ret.st.queued.length = st.queued.length + 1 := by
        rw [hq1, List.length_take]
        omega
      by_cases hfull : st.queued.length + 1 < NUM_BUFFERS
      · exact Or.inl ⟨by omega, by rw [hlen1, hq1]⟩
      · refine Or.inr ⟨0, ?_⟩
        rw [List.rotate_zero, hq1]
        have : st.queued.length + 1 = hdl.buffers.length := by omega
        rw [this, List.take_length]
    · -- saturated queue cannot take the fast path
      exfalso
      have : st.queued.length = NUM_BUFFERS := by
        rw [hqrot, List.length_rotate, hlen]
      omega
  · -- blocking path: the queue was a rotation; it becomes the next rotation
    rcases hinv with ⟨hlt, -⟩ | ⟨j, hqrot⟩
    · exfalso
      have hnq : ¬ st.queued.length < NUM_BUFFERS → True := fun _ => trivial
      have : st.queued.length < NUM_BUFFERS := hlt
      have hgetd : hdl.buffers.getD st.queued.length 0 ≠ ALuintNeg1 := by
        have hkbuf : st.queued.length < hdl.buffers.length := by omega
        rw [List.getD_eq_getElem _ _ hkbuf]
        exact fun hcontra => hsent (hcontra ▸ List.getElem_mem hkbuf)
      exact hgetd ((selectedOrSentinel_of_lt this).symm.trans hs)
    · refine Or.inr ⟨j + 1, ?_⟩
      have hrot1 : (ret.buffer :: rest).rotate 1 = rest ++ [ret.buffer] := by
        rw [List.rotate_cons_succ, List.rotate_zero]
      rw [hq2, ← hrot1, ← hq, hqrot, List.rotate_rotate]

/-- `QueueInv` holds in every state reachable by a session history. -/
theorem runTrace_queueInv {hdl : openal_handle} {fmt : sa_format_t} {ch : Nat}
    (hlen : hdl.buffers.length = NUM_BUFFERS)
    (hsent : ALuintNeg1 ∉ hdl.buffers) :
    ∀ (tr : List Event) (st0 st : SourceState) (total : Nat),
      runTrace hdl fmt ch st0 tr = some (st, total) → QueueInv hdl st0 →
      QueueInv hdl st := by
  intro tr
  induction tr with
  | nil =>
    intro st0 st total h hinv
    unfold runTrace at h
    injection h with h
    injection h with h1 h2
    exact h1 ▸ hinv
  | cons e es ih =>
    intro st0 st total h hinv
    rw [runTrace_cons] at h
    cases hstep : stepEv hdl fmt ch st0 e with
    | none => rw [hstep] at h; cases h
    | some p =>
      obtain ⟨st1, a⟩ := p
      rw [hstep, Option.some_bind] at h
      cases hrest : runTrace hdl fmt ch st1 es with
      | none => rw [hrest] at h; cases h
      | some q =>
        obtain ⟨st2, b⟩ := q
        rw [hrest, Option.map_some'] at h
        injection h with h
        injection h with h1 h2
        have hinv1 : QueueInv hdl st1 := by
          cases e with
          | write n =>
            simp only [stepEv] at hstep
            cases hw : sa_openal_write hdl fmt ch st0 n (fun _ => st0.processed) 1 with
            | none => rw [hw] at hstep; cases hstep
            | some r =>
              rw [hw, Option.map_some'] at hstep
              injection hstep with hstep
              injection hstep with hs1 hs2
              exact hs1 ▸ queueInv_write hlen hsent hinv hw
          | process =>
            simp only [stepEv] at hstep
            injection hstep with hstep
            injection hstep with hs1 hs2
            exact hs1 ▸ queueInv_process hinv
        exact h1 ▸ ih st1 st2 b hrest hinv1

/-- `QueueInv` bounds the queue length by the pool capacity. -/
theorem queueInv_length_le {hdl : openal_handle} {st : SourceState}
    (hlen : hdl.buffers.length = NUM_BUFFERS) (h : QueueInv hdl st) :
    st.queued.length ≤ NUM_BUFFERS := by
  rcases h with ⟨hlt, -⟩ | ⟨j, hq⟩
  · omega
  · rw [hq, List.length_rotate, hlen]

/-! ### Claim theorems -/

/-- C1: for every write call, if the queued count is below the pool
capacity 128 the scheduler selects and fills the pool buffer at index
`queuedCount` (fast path, no blocking); hence 128 consecutive writes
issued before the device marks any buffer processed land in pool buffers
0 through 127 respectively, and the queued count after the 128th write
is 128. -/
theorem claim_C1_fast_path_indexing (hdl : openal_handle) (fmt : sa_format_t)
    (ch : Nat) (f : ALformat)
    (hlen : hdl.buffers.length = NUM_BUFFERS)
    (hsent : ALuintNeg1 ∉ hdl.buffers)
    (hf : al_format fmt ch = .ok f) :
    (∀ (st : SourceState) (n : Nat) (sched : Nat → Nat) (fuel : Nat),
      st.queued.length < NUM_BUFFERS →
      ∃ ret, sa_openal_write hdl fmt ch st n sched fuel = some ret ∧
        ret.blocked = false ∧
        ret.buffer = hdl.buffers.getD st.queued.length 0 ∧
        ret.frames = n) ∧
    (∀ ns : List Nat, ns.length = NUM_BUFFERS →
      ∃ st2, runWrites hdl fmt ch initState ns = some (st2, hdl.buffers) ∧
        st2.queued.length = NUM_BUFFERS) := by
  constructor
  · intro st n sched fuel hnq
    have hkbuf : st.queued.length < hdl.buffers.length := by omega
    have hb : hdl.buffers.getD st.queued.length 0 ≠ ALuintNeg1 := by
      rw [List.getD_eq_getElem _ _ hkbuf]
      exact fun hcontra => hsent (hcontra ▸ List.getElem_mem hkbuf)
    exact ⟨_, write_fast st n sched fuel hnq hb hf, rfl, rfl, rfl⟩
  · intro ns hns
    obtain ⟨st2, hrun, hq2⟩ := runWrites_fresh hlen hsent hf ns 0 initState
      (by omega) (by simp [initState])
    refine ⟨st2, ?_, ?_⟩
    · rw [hrun, List.drop_zero, hns, ← hlen, List.take_length]
    · rw [hq2, List.length_take]
      rw [Nat.zero_add, hns, hlen]
      exact Nat.min_self _

/-- Witness for C1 at a concrete pool (handles 0..127), mono S16. -/
theorem claim_C1_fast_path_indexing_witness :
    (∃ ret, sa_openal_write ⟨List.range 128, .SA_STREAM_PLAYBACK⟩
        .SA_SAMPLE_FORMAT_S16 1 initState 7 (fun _ => 0) 1 = some ret ∧
      ret.blocked = false ∧
      ret.buffer = (⟨List.range 128, .SA_STREAM_PLAYBACK⟩ : openal_handle).buffers.getD
        initState.queued.length 0 ∧
      ret.frames = 7) ∧
    (∃ st2, runWrites ⟨List.range 128, .SA_STREAM_PLAYBACK⟩ .SA_SAMPLE_FORMAT_S16 1
        initState (List.replicate 128 7) =
          some (st2, (⟨List.range 128, .SA_STREAM_PLAYBACK⟩ : openal_handle).buffers) ∧
      st2.queued.length = NUM_BUFFERS) := by
  have h := claim_C1_fast_path_indexing ⟨List.range 128, .SA_STREAM_PLAYBACK⟩
    .SA_SAMPLE_FORMAT_S16 1 .AL_FORMAT_MONO16 (by decide) (by decide) rfl
  exact ⟨h.1 initState 7 (fun _ => 0) 1 (by decide), h.2 (List.replicate 128 7) (by decide)⟩

/-- C2: a write that finds the queued count at or above the pool capacity
enters the pool-exhausted path.  It spins on the processed-buffer count: if
the device never reports a processed buffer the call never returns (for
every fuel bound), and as soon as some poll reports one, the call
terminates, dequeues exactly the oldest queued buffer and reuses it for
this write (requeueing it at the tail). -/
theorem claim_C2_pool_exhausted_spin (hdl : openal_handle) (fmt : sa_format_t)
    (ch : Nat) (f : ALformat) (st : SourceState) (n : Nat)
    (hf : al_format fmt ch = .ok f)
    (hfull : NUM_BUFFERS ≤ st.queued.length) :
    (∀ (sched : Nat → Nat) (fuel : Nat), (∀ i, sched i = 0) →
      sa_openal_write hdl fmt ch st n sched fuel = none) ∧
    (∀ sched : Nat → Nat, (∃ i, 0 < sched i) →
      ∃ fuel ret, sa_openal_write hdl fmt ch st n sched fuel = some ret ∧
        ret.blocked = true ∧
        ∃ rest, st.queued = ret.buffer :: rest ∧
          ret.st.queued = rest ++ [ret.buffer]) := by
  have hsel : selectedOrSentinel hdl st.queued.length = ALuintNeg1 :=
    selectedOrSentinel_of_ge (by omega)
  constructor
  · intro sched fuel hz
    exact write_block_spin n hsel (pollProcessed_none_of_zero hz fuel 0)
  · intro sched hex
    obtain ⟨i, hi⟩ := hex
    obtain ⟨v, hv⟩ := pollProcessed_some_of_exists (i + 1) 0
      ⟨i, by omega, by simpa using hi⟩
    cases hq : st.queued with
    | nil =>
      exfalso
      rw [hq] at hfull
      simp [NUM_BUFFERS] at hfull
    | cons b rest =>
      exact ⟨i + 1, _, write_block n hsel hv hq hf, rfl, rest, rfl, rfl⟩

/-- Witness for C2 at a full queue of 128 buffers. -/
theorem claim_C2_pool_exhausted_spin_witness :
    (sa_openal_write ⟨List.range 128, .SA_STREAM_PLAYBACK⟩ .SA_SAMPLE_FORMAT_S16 1
      ⟨List.range 128, 0, true⟩ 9 (fun _ => 0) 5 = none) ∧
    (∃ fuel ret, sa_openal_write ⟨List.range 128, .SA_STREAM_PLAYBACK⟩
        .SA_SAMPLE_FORMAT_S16 1 ⟨List.range 128, 0, true⟩ 9 (fun _ => 1) fuel = some ret ∧
      ret.blocked = true ∧
      ∃ rest, (⟨List.range 128, 0, true⟩ : SourceState).queued = ret.buffer :: rest ∧
        ret.st.queued = rest ++ [ret.buffer]) := by
  have h := claim_C2_pool_exhausted_spin ⟨List.range 128, .SA_STREAM_PLAYBACK⟩
    .SA_SAMPLE_FORMAT_S16 1 .AL_FORMAT_MONO16 ⟨List.range 128, 0, true⟩ 9 rfl (by decide)
  exact ⟨h.1 (fun _ => 0) 5 (fun _ => rfl), h.2 (fun _ => 1) ⟨0, by decide⟩⟩

/-- C4: write performs no partial writes: every write call that returns
accepted all `nframes` frames into exactly one buffer (the one it
enqueued at the tail) and returned `nframes`; consequently over any
completed session history the total frames accepted equals the total
frames submitted. -/
theorem claim_C4_no_partial_writes :
    (∀ (hdl : openal_handle) (fmt : sa_format_t) (ch : Nat) (st : SourceState)
        (n : Nat) (sched : Nat → Nat) (fuel : Nat) (ret : WriteRet),
      sa_openal_write hdl fmt ch st n sched fuel = some ret →
        ret.ret = n ∧ ret.frames = n ∧ ret.st.queued.getLast? = some ret.buffer) ∧
    (∀ (hdl : openal_handle) (fmt : sa_format_t) (ch : Nat) (st0 : SourceState)
        (tr : List Event) (st : SourceState) (total : Nat),
      runTrace hdl fmt ch st0 tr = some (st, total) → total = framesSubmitted tr) := by
  constructor
  · intro hdl fmt ch st n sched fuel ret h
    obtain ⟨h1, h2, -, -, hpath⟩ := write_anatomy h
    refine ⟨h1, h2, ?_⟩
    rcases hpath with ⟨-, -, -, hq, -⟩ | ⟨-, -, v, rest, -, -, hq, -⟩
    · rw [hq]; exact List.getLast?_concat _
    · rw [hq]; exact List.getLast?_concat _
  · intro hdl fmt ch st0 tr
    induction tr generalizing st0 with
    | nil =>
      intro st total h
      have hnil : runTrace hdl fmt ch st0 [] = some (st0, 0) := rfl
      rw [hnil] at h
      injection h with h
      injection h with h1 h2
      rw [← h2]
      rfl
    | cons e es ih =>
      intro st total h
      rw [runTrace_cons] at h
      cases hstep : stepEv hdl fmt ch st0 e with
      | none => rw [hstep] at h; cases h
      | some p =>
        obtain ⟨st1, a⟩ := p
        rw [hstep, Option.some_bind] at h
        cases hrest : runTrace hdl fmt ch st1 es with
        | none => rw [hrest] at h; cases h
        | some q =>
          obtain ⟨st2, b⟩ := q
          rw [hrest, Option.map_some'] at h
          injection h with h
          injection h with h1 h2
          have hb : b = framesSubmitted es := ih st1 st2 b hrest
          cases e with
          | write n =>
            simp only [stepEv] at hstep
            cases hw : sa_openal_write hdl fmt ch st0 n (fun _ => st0.processed) 1 with
            | none => rw [hw] at hstep; cases hstep
            | some r =>
              rw [hw, Option.map_some'] at hstep
              injection hstep with hstep
              injection hstep with hs1 hs2
              obtain ⟨hr, -, -, -, -⟩ := write_anatomy hw
              rw [← h2, ← hs2, hr, hb]
              rfl
          | process =>
            simp only [stepEv] at hstep
            injection hstep with hstep
            injection hstep with hs1 hs2
            rw [← h2, ← hs2, hb]
            simp [framesSubmitted]

/-- Witness for C4: a concrete completed write and a concrete history. -/
theorem claim_C4_no_partial_writes_witness :
    ((⟨⟨[0], 0, true⟩, 0, 7, 7, true, false⟩ : WriteRet).ret = 7 ∧
      (⟨⟨[0], 0, true⟩, 0, 7, 7, true, false⟩ : WriteRet).frames = 7 ∧
      (⟨⟨[0], 0, true⟩, 0, 7, 7, true, false⟩ : WriteRet).st.queued.getLast? = some
        (⟨⟨[0], 0, true⟩, 0, 7, 7, true, false⟩ : WriteRet).buffer) ∧
    (7 + 4 + 0 = framesSubmitted [Event.write 7, Event.write 4, Event.process]) := by
  constructor
  · exact (claim_C4_no_partial_writes.1 ⟨List.range 128, .SA_STREAM_PLAYBACK⟩
      .SA_SAMPLE_FORMAT_S16 1 initState 7 (fun _ => 0) 1
      ⟨⟨[0], 0, true⟩, 0, 7, 7, true, false⟩ (by decide))
  · exact (claim_C4_no_partial_writes.2 ⟨List.range 128, .SA_STREAM_PLAYBACK⟩
      .SA_SAMPLE_FORMAT_S16 1 initState [Event.write 7, Event.write 4, Event.process]
      ⟨[0, 1], 1, true⟩ (7 + 4 + 0) (by decide))

/-- C5: every successful write leaves the source playing; the
start-playback command is issued if and only if the state queried after
enqueueing is not playing; a single queued buffer suffices (no prebuffer
threshold), so the first write after open transitions the source from
not-playing to playing. -/
theorem claim_C5_auto_start (hdl : openal_handle) (fmt : sa_format_t) (ch : Nat)
    (f : ALformat)
    (hlen : hdl.buffers.length = NUM_BUFFERS)
    (hsent : ALuintNeg1 ∉ hdl.buffers)
    (hf : al_format fmt ch = .ok f) :
    (∀ (st : SourceState) (n : Nat) (sched : Nat → Nat) (fuel : Nat) (ret : WriteRet),
      sa_openal_write hdl fmt ch st n sched fuel = some ret →
        ret.st.playing = true ∧ ret.played = !st.playing) ∧
    (initState.playing = false ∧
      ∀ (n : Nat) (sched : Nat → Nat) (fuel : Nat),
        ∃ ret, sa_openal_write hdl fmt ch initState n sched fuel = some ret ∧
          ret.played = true ∧ ret.st.playing = true ∧ ret.st.queued.length = 1) := by
  constructor
  · intro st n sched fuel ret h
    obtain ⟨-, -, h3, h4, -⟩ := write_anatomy h
    exact ⟨h3, h4⟩
  · refine ⟨rfl, ?_⟩
    intro n sched fuel
    have h0 : 0 < hdl.buffers.length := by rw [hlen]; decide
    have hb : hdl.buffers.getD 0 0 ≠ ALuintNeg1 := by
      rw [List.getD_eq_getElem _ _ h0]
      exact fun hc => hsent (hc ▸ List.getElem_mem h0)
    exact ⟨_, write_fast initState n sched fuel (by decide) hb hf, rfl, rfl, rfl⟩

/-- Witness for C5: the first write after open starts playback. -/
theorem claim_C5_auto_start_witness :
    ∃ ret, sa_openal_write ⟨List.range 128, .SA_STREAM_PLAYBACK⟩ .SA_SAMPLE_FORMAT_S16 1
        initState 4 (fun _ => 0) 1 = some ret ∧
      ret.played = true ∧ ret.st.playing = true ∧ ret.st.queued.length = 1 :=
  (claim_C5_auto_start ⟨List.range 128, .SA_STREAM_PLAYBACK⟩ .SA_SAMPLE_FORMAT_S16 1
    .AL_FORMAT_MONO16 (by decide) (by decide) rfl).2.2 4 (fun _ => 0) 1

/-- C10: the scheduler's path choice is made by testing the selected-buffer
variable against the sentinel `(ALuint)-1 = 2^32 - 1`.  For a pool with no
handle equal to the sentinel, the pool-exhausted path is entered iff the
queued count is at least 128; a completed write records exactly this path
choice; but for a pool whose buffer at index `queuedCount` has handle
`2^32 - 1`, a write with `queuedCount < 128` wrongly enters the blocking
pool-exhausted path instead of using that buffer. -/
theorem claim_C10_sentinel_semantics (hdl : openal_handle) (fmt : sa_format_t)
    (ch : Nat) (st : SourceState) (n : Nat) (sched : Nat → Nat) (fuel : Nat) :
    (hdl.buffers.length = NUM_BUFFERS → ALuintNeg1 ∉ hdl.buffers →
      (selectedOrSentinel hdl st.queued.length = ALuintNeg1 ↔
        NUM_BUFFERS ≤ st.queued.length)) ∧
    (∀ ret, sa_openal_write hdl fmt ch st n sched fuel = some ret →
      (ret.blocked = true ↔ selectedOrSentinel hdl st.queued.length = ALuintNeg1)) ∧
    (hdl.buffers.getD st.queued.length 0 = ALuintNeg1 →
      st.queued.length < NUM_BUFFERS →
      (sa_openal_write hdl fmt ch st n sched fuel = none ∨
        ∃ ret, sa_openal_write hdl fmt ch st n sched fuel = some ret ∧
          ret.blocked = true)) := by
  refine ⟨?_, ?_, ?_⟩
  · intro hlen hsent
    constructor
    · intro hs
      by_contra hge
      have hlt : st.queued.length < NUM_BUFFERS := Nat.lt_of_not_le hge
      have hkbuf : st.queued.length < hdl.buffers.length := by omega
      rw [selectedOrSentinel_of_lt hlt, List.getD_eq_getElem _ _ hkbuf] at hs
      exact hsent (hs ▸ List.getElem_mem hkbuf)
    · intro hge
      exact selectedOrSentinel_of_ge (by omega)
  · intro ret h
    obtain ⟨-, -, -, -, hpath⟩ := write_anatomy h
    rcases hpath with ⟨hb, hs, -, -, -⟩ | ⟨hb, hs, -⟩
    · simp [hb, hs]
    · simp [hb, hs]
  · intro hsent1 hlt
    have hs : selectedOrSentinel hdl st.queued.length = ALuintNeg1 := by
      rw [selectedOrSentinel_of_lt hlt]
      exact hsent1
    cases hpoll : pollProcessed sched 0 fuel with
    | none => exact Or.inl (write_block_spin n hs hpoll)
    | some v =>
      cases hq : st.queued with
      | nil => exact Or.inl (write_block_empty n hs hpoll hq)
      | cons b rest =>
        cases hfm : al_format fmt ch with
        | error e =>
          cases e
          exact Or.inl (write_format_err st n sched fuel hfm)
        | ok f =>
          exact Or.inr ⟨_, write_block n hs hpoll hq hfm, rfl⟩

/-- Witness for C10: a pool whose entry at the queued index is the
sentinel makes a write with queued count 1 < 128 take the blocking path. -/
theorem claim_C10_sentinel_semantics_witness :
    ((⟨(List.range 128).set 1 ALuintNeg1, .SA_STREAM_PLAYBACK⟩ : openal_handle).buffers.getD
        (⟨[7], 1, true⟩ : SourceState).queued.length 0 = ALuintNeg1 ∧
      (⟨[7], 1, true⟩ : SourceState).queued.length < NUM_BUFFERS) ∧
    (sa_openal_write ⟨(List.range 128).set 1 ALuintNeg1, .SA_STREAM_PLAYBACK⟩
        .SA_SAMPLE_FORMAT_S16 1 ⟨[7], 1, true⟩ 5 (fun _ => 1) 1 = none ∨
      ∃ ret, sa_openal_write ⟨(List.range 128).set 1 ALuintNeg1, .SA_STREAM_PLAYBACK⟩
          .SA_SAMPLE_FORMAT_S16 1 ⟨[7], 1, true⟩ 5 (fun _ => 1) 1 = some ret ∧
        ret.blocked = true) :=
  ⟨⟨by decide, by decide⟩,
    (claim_C10_sentinel_semantics ⟨(List.range 128).set 1 ALuintNeg1, .SA_STREAM_PLAYBACK⟩
      .SA_SAMPLE_FORMAT_S16 1 ⟨[7], 1, true⟩ 5 (fun _ => 1) 1).2.2 (by decide) (by decide)⟩

/-- C3: over any session history, the number of buffers simultaneously in
flight never exceeds the pool capacity 128 (neither does the queue
itself), and a pool buffer currently in flight is reused for a new write
only via the pool-exhausted path: only after a poll has reported at least
one processed buffer and the (oldest) buffer has been unqueued. -/
theorem claim_C3_bounded_in_flight (hdl : openal_handle) (fmt : sa_format_t) (ch : Nat)
    (hlen : hdl.buffers.length = NUM_BUFFERS)
    (hnodup : hdl.buffers.Nodup)
    (hsent : ALuintNeg1 ∉ hdl.buffers) :
    ∀ (tr : List Event) (st : SourceState) (total : Nat),
      runTrace hdl fmt ch initState tr = some (st, total) →
      (st.queued.length ≤ NUM_BUFFERS ∧ inFlight st ≤ NUM_BUFFERS) ∧
      (∀ (n : Nat) (ret : WriteRet),
        sa_openal_write hdl fmt ch st n (fun _ => st.processed) 1 = some ret →
        ret.buffer ∈ st.queued →
        ret.blocked = true ∧ 0 < st.processed ∧
        st.queued.head? = some ret.buffer ∧
        ret.st.queued = st.queued.tail ++ [ret.buffer]) := by
  intro tr st total h
  have hinv := runTrace_queueInv hlen hsent tr initState st total h (queueInv_init hdl)
  have hle := queueInv_length_le hlen hinv
  refine ⟨⟨hle, ?_⟩, ?_⟩
  · unfold inFlight
    omega
  · intro n ret hw hmem
    obtain ⟨-, -, -, -, hpath⟩ := write_anatomy hw
    rcases hpath with ⟨-, hs, hbuf, -, -⟩ | ⟨hb, hs, v, rest, hpoll, hq, hq2, -⟩
    · -- fast path never selects an in-flight buffer: contradiction
      exfalso
      have hnq : st.queued.length < NUM_BUFFERS := by
        by_contra hge
        exact hs (selectedOrSentinel_of_ge hge)
      have hkbuf : st.queued.length < hdl.buffers.length := by omega
      have hqpre : st.queued = hdl.buffers.take st.queued.length := by
        rcases hinv with ⟨-, hqpre⟩ | ⟨j, hqrot⟩
        · exact hqpre
        · exfalso
          have : st.queued.length = NUM_BUFFERS := by
            rw [hqrot, List.length_rotate, hlen]
          omega
      rw [hbuf, selectedOrSentinel_of_lt hnq, List.getD_eq_getElem _ _ hkbuf] at hmem
      obtain ⟨m, hm, hgm⟩ := List.mem_iff_getElem.mp hmem
      have hTake : st.queued[m] = hdl.buffers[m] := by
        have h1 := List.getElem_of_eq hqpre hm
        rw [h1, List.getElem_take]
      have hgm2 : hdl.buffers[m] = hdl.buffers[st.queued.length] := by
        rw [← hTake, hgm]
      have hinj := List.nodup_iff_injective_getElem.mp hnodup
      have heq : (⟨m, by omega⟩ : Fin hdl.buffers.length) = ⟨st.queued.length, hkbuf⟩ := by
        apply hinj
        simpa using hgm2
      have hmn : m = st.queued.length := by injection heq
      omega
    · refine ⟨hb, ?_, ?_, ?_⟩
      · by_cases hp : 0 < st.processed
        · exact hp
        · exfalso
          have hnone : pollProcessed (fun _ => st.processed) 0 1 = none := by
            simp [pollProcessed, hp]
          rw [hnone] at hpoll
          cases hpoll
      · rw [hq]
        rfl
      · rw [hq2, hq]
        rfl

/-- Witness for C3 at a concrete three-event history. -/
theorem claim_C3_bounded_in_flight_witness :
    (⟨[0, 1], 1, true⟩ : SourceState).queued.length ≤ NUM_BUFFERS ∧
    inFlight ⟨[0, 1], 1, true⟩ ≤ NUM_BUFFERS := by
  have h := claim_C3_bounded_in_flight ⟨List.range 128, .SA_STREAM_PLAYBACK⟩
    .SA_SAMPLE_FORMAT_S16 1 (by decide) (by decide) (by decide)
    [Event.write 5, Event.process, Event.write 6] ⟨[0, 1], 1, true⟩ 11 (by decide)
  exact h.1

/-- C6 (evaluation at the failing input): when the device opens but
context creation fails, `sa_openal_open_stream` frees only the heap
handle and reports a diagnostic with the translated error code — the
opened device is NOT closed (resource leak), contradicting the claim
that everything already acquired is released.  For contrast, on a
device-open failure (second input) nothing but the heap allocation had
been acquired, and it is freed. -/
theorem claim_C6_context_failure_leaks_device :
    ((sa_openal_open_stream .SA_STREAM_PLAYBACK .SA_SAMPLE_FORMAT_S16 1
        ⟨true, false, .AL_NO_ERROR, .ALC_INVALID_VALUE⟩).success = false ∧
      (sa_openal_open_stream .SA_STREAM_PLAYBACK .SA_SAMPLE_FORMAT_S16 1
        ⟨true, false, .AL_NO_ERROR, .ALC_INVALID_VALUE⟩).deviceOpened = true ∧
      (sa_openal_open_stream .SA_STREAM_PLAYBACK .SA_SAMPLE_FORMAT_S16 1
        ⟨true, false, .AL_NO_ERROR, .ALC_INVALID_VALUE⟩).deviceClosed = false ∧
      (sa_openal_open_stream .SA_STREAM_PLAYBACK .SA_SAMPLE_FORMAT_S16 1
        ⟨true, false, .AL_NO_ERROR, .ALC_INVALID_VALUE⟩).contextCreated = false ∧
      (sa_openal_open_stream .SA_STREAM_PLAYBACK .SA_SAMPLE_FORMAT_S16 1
        ⟨true, false, .AL_NO_ERROR, .ALC_INVALID_VALUE⟩).heapFreed = true ∧
      (sa_openal_open_stream .SA_STREAM_PLAYBACK .SA_SAMPLE_FORMAT_S16 1
        ⟨true, false, .AL_NO_ERROR, .ALC_INVALID_VALUE⟩).sessionStored = false ∧
      (sa_openal_open_stream .SA_STREAM_PLAYBACK .SA_SAMPLE_FORMAT_S16 1
        ⟨true, false, .AL_NO_ERROR, .ALC_INVALID_VALUE⟩).diagnostic =
          some ("E: Cannot create OpenAL context: " ++
            alc_error_str .ALC_INVALID_VALUE ++ "\n ")) ∧
    ((sa_openal_open_stream .SA_STREAM_PLAYBACK .SA_SAMPLE_FORMAT_S16 1
        ⟨false, true, .AL_INVALID_OPERATION, .ALC_NO_ERROR⟩).success = false ∧
      (sa_openal_open_stream .SA_STREAM_PLAYBACK .SA_SAMPLE_FORMAT_S16 1
        ⟨false, true, .AL_INVALID_OPERATION, .ALC_NO_ERROR⟩).deviceOpened = false ∧
      (sa_openal_open_stream .SA_STREAM_PLAYBACK .SA_SAMPLE_FORMAT_S16 1
        ⟨false, true, .AL_INVALID_OPERATION, .ALC_NO_ERROR⟩).heapFreed = true ∧
      (sa_openal_open_stream .SA_STREAM_PLAYBACK .SA_SAMPLE_FORMAT_S16 1
        ⟨false, true, .AL_INVALID_OPERATION, .ALC_NO_ERROR⟩).diagnostic =
          some ("E: Cannot open OpenAL device: " ++
            al_error_str .AL_INVALID_OPERATION ++ "\n ")) :=
  ⟨⟨rfl, rfl, rfl, rfl, rfl, rfl, rfl⟩, ⟨rfl, rfl, rfl, rfl⟩⟩

/-- C7 counterexample: open does not validate the format/channel
combination.  The float sample format is rejected by the format mapper
(`al_format`), yet an open call requesting it succeeds and performs all
its device I/O (device opened, source and buffers created). -/
theorem claim_C7_counterexample :
    al_format .SA_SAMPLE_FORMAT_FLOAT 1 = Except.error SaFatal.assertFailed ∧
    (sa_openal_open_stream .SA_STREAM_PLAYBACK .SA_SAMPLE_FORMAT_FLOAT 1
        ⟨true, true, .AL_NO_ERROR, .ALC_NO_ERROR⟩).success = true ∧
    (sa_openal_open_stream .SA_STREAM_PLAYBACK .SA_SAMPLE_FORMAT_FLOAT 1
        ⟨true, true, .AL_NO_ERROR, .ALC_NO_ERROR⟩).deviceOpened = true ∧
    (sa_openal_open_stream .SA_STREAM_PLAYBACK .SA_SAMPLE_FORMAT_FLOAT 1
        ⟨true, true, .AL_NO_ERROR, .ALC_NO_ERROR⟩).sourceCreated = true ∧
    (sa_openal_open_stream .SA_STREAM_PLAYBACK .SA_SAMPLE_FORMAT_FLOAT 1
        ⟨true, true, .AL_NO_ERROR, .ALC_NO_ERROR⟩).buffersCreated = true :=
  ⟨rfl, rfl, rfl, rfl, rfl⟩

/-- C7 (amended): open performs no format/channel validation at all — its
outcome is identical for every requested combination — and the
combination is only checked by the format mapper inside write: a write
with a combination the mapper rejects aborts (returns no result). -/
theorem claim_C7_amended_validation_in_write :
    ∀ (env : OpenEnv) (fmt : sa_format_t) (ch : Nat),
      sa_openal_open_stream .SA_STREAM_PLAYBACK fmt ch env =
        sa_openal_open_stream .SA_STREAM_PLAYBACK .SA_SAMPLE_FORMAT_S16 1 env ∧
      (al_format fmt ch = .error .assertFailed →
        ∀ (hdl : openal_handle) (st : SourceState) (n : Nat) (sched : Nat → Nat)
          (fuel : Nat), sa_openal_write hdl fmt ch st n sched fuel = none) := by
  intro env fmt ch
  refine ⟨rfl, ?_⟩
  intro hferr hdl st n sched fuel
  exact write_format_err st n sched fuel hferr

/-- Witness for the amended C7 at the float format. -/
theorem claim_C7_amended_validation_in_write_witness :
    (sa_openal_open_stream .SA_STREAM_PLAYBACK .SA_SAMPLE_FORMAT_FLOAT 1
        ⟨true, true, .AL_NO_ERROR, .ALC_NO_ERROR⟩ =
      sa_openal_open_stream .SA_STREAM_PLAYBACK .SA_SAMPLE_FORMAT_S16 1
        ⟨true, true, .AL_NO_ERROR, .ALC_NO_ERROR⟩) ∧
    sa_openal_write ⟨List.range 128, .SA_STREAM_PLAYBACK⟩ .SA_SAMPLE_FORMAT_FLOAT 1
      initState 3 (fun _ => 0) 1 = none := by
  have h := claim_C7_amended_validation_in_write ⟨true, true, .AL_NO_ERROR, .ALC_NO_ERROR⟩
    .SA_SAMPLE_FORMAT_FLOAT 1
  exact ⟨h.1, h.2 rfl ⟨List.range 128, .SA_STREAM_PLAYBACK⟩ initState 3 (fun _ => 0) 1⟩

/-- C8: close on an open session drains before releasing: if some poll
eventually observes a not-playing state, close returns after the first
such poll (all earlier polls observed playing) and releases everything —
deletes the source, destroys the context, closes the device with the call
matching the session's direction, and clears the stored handle; if the
source reports playing forever, close never returns. -/
theorem claim_C8_drain_and_release (h : openal_handle) (sched : Nat → Bool) :
    ((∃ i, sched i = false) →
      ∃ fuel out, sa_openal_close (some h) sched fuel = some out ∧
        sched out.drainedAt = false ∧
        (∀ j, j < out.drainedAt → sched j = true) ∧
        out.noop = false ∧ out.sourceDeleted = true ∧ out.contextDestroyed = true ∧
        out.handleCleared = true ∧
        out.deviceCloseCall = some (directionCloseCall h.direction)) ∧
    ((∀ i, sched i = true) → ∀ fuel, sa_openal_close (some h) sched fuel = none) := by
  constructor
  · intro hex
    obtain ⟨i, hi⟩ := hex
    obtain ⟨k, hk, hkf, hkall⟩ := drainLoop_some_of_exists (i + 1) 0
      ⟨i, by omega, by simpa using hi⟩
    refine ⟨i + 1,
      ⟨false, k, true, true, some (directionCloseCall h.direction), true⟩,
      ?_, hkf, ?_, rfl, rfl, rfl, rfl, rfl⟩
    · unfold sa_openal_close
      rw [hk]
    · intro j hj
      exact hkall j (by omega) hj
  · intro hall fuel
    unfold sa_openal_close
    rw [drainLoop_none_of_playing hall fuel 0]

/-- Witness for C8: a source that plays for two polls and then stops, and
a source that never stops. -/
theorem claim_C8_drain_and_release_witness :
    (∃ fuel out, sa_openal_close (some ⟨List.range 128, .SA_STREAM_PLAYBACK⟩)
        (fun i => decide (i < 2)) fuel = some out ∧
      (fun i => decide (i < 2)) out.drainedAt = false ∧
      (∀ j, j < out.drainedAt → (fun i => decide (i < 2)) j = true) ∧
      out.noop = false ∧ out.sourceDeleted = true ∧ out.contextDestroyed = true ∧
      out.handleCleared = true ∧
      out.deviceCloseCall = some (directionCloseCall
        (⟨List.range 128, .SA_STREAM_PLAYBACK⟩ : openal_handle).direction)) ∧
    (∀ fuel, sa_openal_close (some ⟨List.range 128, .SA_STREAM_PLAYBACK⟩)
      (fun _ => true) fuel = none) :=
  ⟨(claim_C8_drain_and_release ⟨List.range 128, .SA_STREAM_PLAYBACK⟩
      (fun i => decide (i < 2))).1 ⟨2, by decide⟩,
    (claim_C8_drain_and_release ⟨List.range 128, .SA_STREAM_PLAYBACK⟩
      (fun _ => true)).2 (fun _ => rfl)⟩

/-- C9: the capture direction is present but deterministically
unavailable: every read call fails with the (assert-modelled)
unsupported-operation condition without transferring frames, and every
open with direction Record fails deterministically before acquiring any
device resource. -/
theorem claim_C9_capture_unavailable :
    (∀ n, sa_openal_read n = Except.error SaFatal.assertFailed) ∧
    (∀ (fmt : sa_format_t) (ch : Nat) (env : OpenEnv),
      (sa_openal_open_stream .SA_STREAM_RECORD fmt ch env).success = false ∧
      (sa_openal_open_stream .SA_STREAM_RECORD fmt ch env).aborted = true ∧
      (sa_openal_open_stream .SA_STREAM_RECORD fmt ch env).deviceOpened = false ∧
      (sa_openal_open_stream .SA_STREAM_RECORD fmt ch env).contextCreated = false ∧
      (sa_openal_open_stream .SA_STREAM_RECORD fmt ch env).sourceCreated = false ∧
      (sa_openal_open_stream .SA_STREAM_RECORD fmt ch env).buffersCreated = false ∧
      (sa_openal_open_stream .SA_STREAM_RECORD fmt ch env).sessionStored = false) :=
  ⟨fun _ => rfl, fun _ _ _ => ⟨rfl, rfl, rfl, rfl, rfl, rfl, rfl⟩⟩

end SimpleaudioOpenAL
